import Mathlib

/-!
Verification of the ppaass-agent client-transport core: a shallow embedding of
the HTTP client transport (`src/transport/http/mod.rs`, `HttpClientTransport::process`)
and the agent server accept loop (`src/server.rs`), together with theorems settling
the specification claims about them.

External collaborators (the `httpcodec` request encoder, the `url` crate parser and
the encryption selector from `ppaass_protocol`) are abstracted as function-valued
fields of an `Externals` record; the session-scoped I/O results (framed HTTP decode,
proxy connection creation, proxy channel messages, client writes) are inputs of one
session, so `process` becomes a pure function from those inputs to the ordered trace
of observable effects plus its `Result`.
-/

namespace PpaassAgent

/-- Bytes are modelled as natural numbers. -/
abbrev Byte := Nat

/-- `PpaassUnifiedAddress`: either domain+port or literal IP+port. -/
inductive UnifiedAddress where
  | domain (host : String) (port : Nat)
  | ip (addrText : String) (port : Nat)
deriving DecidableEq, Repr

/-- One decoded HTTP request as produced by the HTTP codec: method, request
target, headers and body. -/
structure HttpRequest where
  method : String
  requestTarget : String
  headers : List (String × String)
  body : List Byte
deriving DecidableEq, Repr

/-- The observable result of `Url::parse`: scheme, optional host, optional port. -/
structure ParsedUrl where
  scheme : String
  hostOpt : Option String
  portOpt : Option Nat
deriving DecidableEq, Repr

/-- An encryption descriptor as produced by the payload-encryption selector. -/
structure PayloadEncryption where
  kind : String
  keyMaterial : List Byte
deriving DecidableEq, Repr

/-- The agent-to-proxy tcp-init request payload built by
`PpaassMessageGenerator::generate_agent_tcp_init_message`. -/
structure TcpInitRequest where
  userToken : String
  srcAddress : UnifiedAddress
  dstAddress : UnifiedAddress
  payloadEncryption : PayloadEncryption
deriving DecidableEq, Repr

/-- `ProxyTcpInitResult`: success with a transport id, or failure with a reason. -/
inductive ProxyTcpInitResult where
  | success (transportId : String)
  | fail (reason : String)
deriving DecidableEq, Repr

/-- The payload of a proxy message, discriminated as a tcp-init response or
anything else (`PpaassProxyMessagePayload` shapes other than `Tcp(Init ...)`). -/
inductive ProxyMessagePayload where
  | tcpInit (result : ProxyTcpInitResult)
  | nonInit
deriving DecidableEq, Repr

/-- A `PpaassProxyMessage`, reduced to the payload the transport inspects. -/
structure ProxyMessage where
  payload : ProxyMessagePayload
deriving DecidableEq, Repr

/-- An HTTP response written back to the client. -/
structure HttpResponse where
  version : String
  statusCode : Nat
  reasonPhrase : String
deriving DecidableEq, Repr

/-- `ClientTransportTcpDataRelay`: the descriptor handed to `tcp_relay`
(transport id, addresses, optional initial payload, session encryption). -/
structure RelayDescriptor where
  transportId : String
  srcAddress : UnifiedAddress
  dstAddress : UnifiedAddress
  initData : Option (List Byte)
  payloadEncryption : PayloadEncryption
deriving DecidableEq, Repr

/-- Observable effects of one HTTP client session, in program order. -/
inductive Event where
  | proxyConnectionCreated
  | proxySendInit (request : TcpInitRequest)
  | clientWrite (response : HttpResponse)
  | relayStarted (descriptor : RelayDescriptor)
deriving DecidableEq, Repr

/-- The external collaborators consumed by the HTTP transport: the `httpcodec`
request re-encoder, the `url` crate parser, and the payload-encryption selector. -/
structure Externals where
  encodeRequest : HttpRequest → Except String (List Byte)
  parseUrl : String → Except String ParsedUrl
  select : String → Option (List Byte) → PayloadEncryption

/-- The session-scoped inputs of one run of `process`: the framed HTTP decode
result, the fresh random bytes, and the outcomes of the fallible I/O steps. -/
structure SessionInput where
  decodedRequest : Option (Except String HttpRequest)
  randomBytes : List Byte
  proxyConnectResult : Except String Unit
  proxySendResult : Except String Unit
  proxyFirstMessage : Option (Except String ProxyMessage)
  clientWriteResult : Except String Unit

def HTTPS_SCHEMA : String := "https"

def SCHEMA_SEP : String := "://"

def CONNECT_METHOD : String := "connect"

def HTTPS_DEFAULT_PORT : Nat := 443

def HTTP_DEFAULT_PORT : Nat := 80

def OK_CODE : Nat := 200

def CONNECTION_ESTABLISHED : String := "Connection Established"

/-- The "200 Connection Established" response built for a plain CONNECT. -/
def connectSuccessResponse : HttpResponse :=
  { version := "HTTP/1.1", statusCode := OK_CODE, reasonPhrase := CONNECTION_ESTABLISHED }

/-- Rust's `str::to_lowercase` as used on HTTP method tokens: per-character
lowercase folding of the string. -/
def lowercase (s : String) : String := String.mk (s.data.map Char.toLower)

/-- Lines 88-111 of `src/transport/http/mod.rs`: lowercase the method; if it is
`connect`, the request url is `https://` ++ the request target and there is no
init data; otherwise the request url is the request target and the init data is
the re-encoding of the whole parsed request. -/
def classifyRequest (ext : Externals) (http_message : HttpRequest) :
    Except String (String × Option (List Byte)) :=
  let http_method := lowercase http_message.method
  if http_method = CONNECT_METHOD then
    Except.ok (HTTPS_SCHEMA ++ SCHEMA_SEP ++ http_message.requestTarget, none)
  else
    match ext.encodeRequest http_message with
    | Except.error _ => Except.error "Fail to encode http data for client"
    | Except.ok encode_result => Except.ok (http_message.requestTarget, some encode_result)

/-- Lines 115-121 of `src/transport/http/mod.rs`: the target port is the url's
explicit port, defaulting to 443 for the `https` scheme and 80 otherwise. -/
def resolveTargetPort (parsed_request_url : ParsedUrl) : Nat :=
  parsed_request_url.portOpt.getD
    (if parsed_request_url.scheme = HTTPS_SCHEMA then HTTPS_DEFAULT_PORT else HTTP_DEFAULT_PORT)

/-- Line 128 of `src/transport/http/mod.rs`: the destination-host guard. -/
def invalidTargetHost (target_host : String) : Bool :=
  target_host = "0.0.0.1" || target_host = "127.0.0.1"

/-- `HttpClientTransport::process` (`src/transport/http/mod.rs` lines 77-213),
as a pure function from the session inputs to the ordered trace of observable
effects and the returned result: decode one HTTP request, classify CONNECT
versus forward, parse the target url, resolve port and host, reject loopback
hosts, select the payload encryption, create the proxy connection, send the
tcp-init request, interpret the proxy's reply, optionally answer the client
with 200 Connection Established, and hand off to the relay. -/
def process (ext : Externals) (user_token : String) (src_address : UnifiedAddress)
    (input : SessionInput) : List Event × Except String RelayDescriptor :=
  match input.decodedRequest with
  | none => ([], Except.error "Nothing to read from client")
  | some (Except.error e) => ([], Except.error e)
  | some (Except.ok http_message) =>
    match classifyRequest ext http_message with
    | Except.error e => ([], Except.error e)
    | Except.ok (request_url, init_data) =>
      match ext.parseUrl request_url with
      | Except.error _ => ([], Except.error "Fail to parse url")
      | Except.ok parsed_request_url =>
        let target_port := resolveTargetPort parsed_request_url
        match parsed_request_url.hostOpt with
        | none => ([], Except.error "Fail to parse target host from request url")
        | some target_host =>
          if invalidTargetHost target_host then
            ([], Except.error "0.0.0.1 or 127.0.0.1 is not a valid destination address")
          else
            let dst_address := UnifiedAddress.domain target_host target_port
            let payload_encryption := ext.select user_token (some input.randomBytes)
            let tcp_init_request : TcpInitRequest :=
              { userToken := user_token, srcAddress := src_address,
                dstAddress := dst_address, payloadEncryption := payload_encryption }
            match input.proxyConnectResult with
            | Except.error e => ([], Except.error e)
            | Except.ok _ =>
              let sent_events := [Event.proxyConnectionCreated,
                Event.proxySendInit tcp_init_request]
              match input.proxySendResult with
              | Except.error e => (sent_events, Except.error e)
              | Except.ok _ =>
                match input.proxyFirstMessage with
                | none => (sent_events, Except.error "Nothing to read from proxy for client")
                | some (Except.error e) => (sent_events, Except.error e)
                | some (Except.ok proxy_message) =>
                  match proxy_message.payload with
                  | ProxyMessagePayload.nonInit =>
                    (sent_events, Except.error "Not a tcp init response for client")
                  | ProxyMessagePayload.tcpInit (ProxyTcpInitResult.fail _) =>
                    (sent_events,
                      Except.error "fail to initialize tcp connection with proxy")
                  | ProxyMessagePayload.tcpInit (ProxyTcpInitResult.success transport_id) =>
                    let relay : RelayDescriptor :=
                      { transportId := transport_id, srcAddress := src_address,
                        dstAddress := dst_address, initData := init_data,
                        payloadEncryption := payload_encryption }
                    if init_data.isNone then
                      match input.clientWriteResult with
                      | Except.error e =>
                        (sent_events ++ [Event.clientWrite connectSuccessResponse],
                          Except.error e)
                      | Except.ok _ =>
                        (sent_events ++ [Event.clientWrite connectSuccessResponse,
                          Event.relayStarted relay], Except.ok relay)
                    else
                      (sent_events ++ [Event.relayStarted relay], Except.ok relay)

/-- A data frame sent to the proxy during the relay phase: the encryption
descriptor it is encrypted under, and the raw payload bytes. -/
structure DataFrame where
  payloadEncryption : PayloadEncryption
  data : List Byte
deriving DecidableEq, Repr

/-- Modelled from the spec: the `tcp_relay` engine (spec section 4.6) is not among
the provided sources, only its caller is. Per the spec, on entering `Established`,
if `init_data` is present it is sent to the proxy side as the first payload frame
before generic relaying begins, and each client chunk is wrapped as a data frame
encrypted with the session's descriptor. The function yields the ordered sequence
of client-to-proxy frames for a session whose client sends `clientChunks`. -/
def tcp_relay (relay : RelayDescriptor) (clientChunks : List (List Byte)) : List DataFrame :=
  (match relay.initData with
    | some d => [{ payloadEncryption := relay.payloadEncryption, data := d }]
    | none => []) ++
  clientChunks.map (fun chunk => { payloadEncryption := relay.payloadEncryption, data := chunk })

/-- The outcome of one iteration of the accept loop in `AgentServer::run`:
either a connection was accepted (carrying the eventual result of its spawned
session task), or the accept itself failed. -/
inductive AcceptOutcome where
  | ok (sessionResult : Except String Unit)
  | err (e : String)
deriving Repr

/-- An observable effect of the accept loop. -/
inductive ServerEvent where
  | acceptErrorLogged (e : String)
  | sessionSpawned (sessionResult : Except String Unit)
deriving Repr

/-- `AgentServer::handle_client_connection` (`src/server.rs` lines 107-127):
spawns the session task and drops its join handle, so the task's own
`Except` result is recorded in its event and never propagated to the caller. -/
def handle_client_connection (sessionResult : Except String Unit) : ServerEvent :=
  ServerEvent.sessionSpawned sessionResult

/-- The accept loop of `AgentServer::run` (`src/server.rs` lines 77-92), run over
a finite sequence of accept outcomes: an accepted connection is handed to
`handle_client_connection`, a failed accept is logged and the loop continues. -/
def AgentServer.run : List AcceptOutcome → List ServerEvent
  | [] => []
  | AcceptOutcome.ok s :: rest => handle_client_connection s :: AgentServer.run rest
  | AcceptOutcome.err e :: rest => ServerEvent.acceptErrorLogged e :: AgentServer.run rest

/-- Helper: on a lowercase-`connect` method, classification yields the
`https://`-prefixed url and no init data. -/
theorem classifyRequest_connect (ext : Externals) (req : HttpRequest)
    (h : lowercase req.method = CONNECT_METHOD) :
    classifyRequest ext req =
      Except.ok (HTTPS_SCHEMA ++ SCHEMA_SEP ++ req.requestTarget, none) := by
  simp [classifyRequest, h]

/-- Helper: on a non-`connect` method whose re-encoding succeeds, classification
yields the request target and the re-encoded bytes as init data. -/
theorem classifyRequest_forward (ext : Externals) (req : HttpRequest) (bs : List Byte)
    (h : ¬ lowercase req.method = CONNECT_METHOD)
    (henc : ext.encodeRequest req = Except.ok bs) :
    classifyRequest ext req = Except.ok (req.requestTarget, some bs) := by
  simp [classifyRequest, h, henc]

/-- Helper: inversion of a successful `process` run. A run that hands a relay
descriptor off to the relay has decoded a request, classified it, parsed the
target url, resolved a non-loopback host, and received a successful tcp-init
reply; the descriptor fields and the effect trace have the expected shape. -/
theorem process_ok_inv (ext : Externals) (user_token : String) (src_address : UnifiedAddress)
    (input : SessionInput) (rd : RelayDescriptor)
    (hok : (process ext user_token src_address input).2 = Except.ok rd) :
    ∃ http_message request_url init_data parsed_request_url target_host transport_id,
      input.decodedRequest = some (Except.ok http_message) ∧
      classifyRequest ext http_message = Except.ok (request_url, init_data) ∧
      ext.parseUrl request_url = Except.ok parsed_request_url ∧
      parsed_request_url.hostOpt = some target_host ∧
      invalidTargetHost target_host = false ∧
      input.proxyFirstMessage = some (Except.ok
        { payload := ProxyMessagePayload.tcpInit (ProxyTcpInitResult.success transport_id) }) ∧
      rd = { transportId := transport_id, srcAddress := src_address,
             dstAddress := UnifiedAddress.domain target_host (resolveTargetPort parsed_request_url),
             initData := init_data,
             payloadEncryption := ext.select user_token (some input.randomBytes) } ∧
      (process ext user_token src_address input).1 =
        [Event.proxyConnectionCreated,
          Event.proxySendInit
            { userToken := user_token, srcAddress := src_address,
              dstAddress := UnifiedAddress.domain target_host (resolveTargetPort parsed_request_url),
              payloadEncryption := ext.select user_token (some input.randomBytes) }] ++
        (if init_data.isNone then [Event.clientWrite connectSuccessResponse] else []) ++
        [Event.relayStarted rd] := by
  cases hdec : input.decodedRequest with
  | none => simp [process, hdec] at hok
  | some r =>
  cases r with
  | error e => simp [process, hdec] at hok
  | ok http_message =>
  cases hcls : classifyRequest ext http_message with
  | error e => simp [process, hdec, hcls] at hok
  | ok p =>
  obtain ⟨request_url, init_data⟩ := p
  cases hurl : ext.parseUrl request_url with
  | error e => simp [process, hdec, hcls, hurl] at hok
  | ok parsed_request_url =>
  cases hhost : parsed_request_url.hostOpt with
  | none => simp [process, hdec, hcls, hurl, hhost] at hok
  | some target_host =>
  cases hguard : invalidTargetHost target_host with
  | true => simp [process, hdec, hcls, hurl, hhost, hguard] at hok
  | false =>
  cases hconn : input.proxyConnectResult with
  | error e => simp [process, hdec, hcls, hurl, hhost, hguard, hconn] at hok
  | ok u0 =>
  cases hsend : input.proxySendResult with
  | error e => simp [process, hdec, hcls, hurl, hhost, hguard, hconn, hsend] at hok
  | ok u1 =>
  cases hmsg : input.proxyFirstMessage with
  | none => simp [process, hdec, hcls, hurl, hhost, hguard, hconn, hsend, hmsg] at hok
  | some m =>
  cases m with
  | error e => simp [process, hdec, hcls, hurl, hhost, hguard, hconn, hsend, hmsg] at hok
  | ok proxy_message =>
  obtain ⟨payload⟩ := proxy_message
  cases payload with
  | nonInit => simp [process, hdec, hcls, hurl, hhost, hguard, hconn, hsend, hmsg] at hok
  | tcpInit result =>
  cases result with
  | fail reason => simp [process, hdec, hcls, hurl, hhost, hguard, hconn, hsend, hmsg] at hok
  | success transport_id =>
  cases init_data with
  | none =>
    cases hwrite : input.clientWriteResult with
    | error e =>
      simp [process, hdec, hcls, hurl, hhost, hguard, hconn, hsend, hmsg, hwrite] at hok
    | ok u2 =>
      simp only [process, hdec, hcls, hurl, hhost, hguard, hconn, hsend, hmsg, hwrite] at hok
      simp at hok
      subst hok
      refine ⟨http_message, request_url, none, parsed_request_url, target_host, transport_id,
        rfl, hcls, hurl, hhost, hguard, rfl, rfl, ?_⟩
      simp [process, hdec, hcls, hurl, hhost, hguard, hconn, hsend, hmsg, hwrite]
  | some d =>
    simp only [process, hdec, hcls, hurl, hhost, hguard, hconn, hsend, hmsg] at hok
    simp at hok
    subst hok
    refine ⟨http_message, request_url, some d, parsed_request_url, target_host, transport_id,
      rfl, hcls, hurl, hhost, hguard, rfl, rfl, ?_⟩
    simp [process, hdec, hcls, hurl, hhost, hguard, hconn, hsend, hmsg]

/-- Helper: once the session has a decoded request, a classified url, a parsed
url with a non-loopback host and a created proxy connection, the effect trace
begins with the proxy-connection creation followed by the tcp-init send carrying
the derived destination address and the selected payload encryption. -/
theorem process_reaches_init (ext : Externals) (user_token : String)
    (src_address : UnifiedAddress) (input : SessionInput) (http_message : HttpRequest)
    (request_url : String) (init_data : Option (List Byte)) (parsed_request_url : ParsedUrl)
    (target_host : String)
    (hdec : input.decodedRequest = some (Except.ok http_message))
    (hcls : classifyRequest ext http_message = Except.ok (request_url, init_data))
    (hurl : ext.parseUrl request_url = Except.ok parsed_request_url)
    (hhost : parsed_request_url.hostOpt = some target_host)
    (hguard : invalidTargetHost target_host = false)
    (hconn : input.proxyConnectResult = Except.ok ()) :
    ∃ evs, (process ext user_token src_address input).1 =
      Event.proxyConnectionCreated ::
        Event.proxySendInit
          { userToken := user_token, srcAddress := src_address,
            dstAddress := UnifiedAddress.domain target_host (resolveTargetPort parsed_request_url),
            payloadEncryption := ext.select user_token (some input.randomBytes) } :: evs := by
  cases hsend : input.proxySendResult with
  | error e =>
    exact ⟨[], by simp [process, hdec, hcls, hurl, hhost, hguard, hconn, hsend]⟩
  | ok u1 =>
  cases hmsg : input.proxyFirstMessage with
  | none =>
    exact ⟨[], by simp [process, hdec, hcls, hurl, hhost, hguard, hconn, hsend, hmsg]⟩
  | some m =>
  cases m with
  | error e =>
    exact ⟨[], by simp [process, hdec, hcls, hurl, hhost, hguard, hconn, hsend, hmsg]⟩
  | ok proxy_message =>
  obtain ⟨payload⟩ := proxy_message
  cases payload with
  | nonInit =>
    exact ⟨[], by simp [process, hdec, hcls, hurl, hhost, hguard, hconn, hsend, hmsg]⟩
  | tcpInit result =>
  cases result with
  | fail reason =>
    exact ⟨[], by simp [process, hdec, hcls, hurl, hhost, hguard, hconn, hsend, hmsg]⟩
  | success transport_id =>
  cases init_data with
  | none =>
    cases hwrite : input.clientWriteResult with
    | error e =>
      exact ⟨[Event.clientWrite connectSuccessResponse],
        by simp [process, hdec, hcls, hurl, hhost, hguard, hconn, hsend, hmsg, hwrite]⟩
    | ok u2 =>
      exact ⟨[Event.clientWrite connectSuccessResponse,
        Event.relayStarted
          { transportId := transport_id, srcAddress := src_address,
            dstAddress := UnifiedAddress.domain target_host (resolveTargetPort parsed_request_url),
            initData := none,
            payloadEncryption := ext.select user_token (some input.randomBytes) }],
        by simp [process, hdec, hcls, hurl, hhost, hguard, hconn, hsend, hmsg, hwrite]⟩
  | some d =>
    exact ⟨[Event.relayStarted
        { transportId := transport_id, srcAddress := src_address,
          dstAddress := UnifiedAddress.domain target_host (resolveTargetPort parsed_request_url),
          initData := some d,
          payloadEncryption := ext.select user_token (some input.randomBytes) }],
      by simp [process, hdec, hcls, hurl, hhost, hguard, hconn, hsend, hmsg]⟩

/-- Helper: a client write or a relay start can appear in the trace only after
the proxy replied with a successful tcp-init result. -/
theorem process_late_event_implies_success (ext : Externals) (user_token : String)
    (src_address : UnifiedAddress) (input : SessionInput) (ev : Event)
    (hev : ev ∈ (process ext user_token src_address input).1)
    (hlate : (∃ response, ev = Event.clientWrite response) ∨
      ∃ descriptor, ev = Event.relayStarted descriptor) :
    ∃ transport_id, input.proxyFirstMessage = some (Except.ok
      { payload := ProxyMessagePayload.tcpInit (ProxyTcpInitResult.success transport_id) }) := by
  rcases hlate with ⟨response, hl⟩ | ⟨descriptor, hl⟩ <;> subst hl
  all_goals
    cases hdec : input.decodedRequest with
    | none => simp [process, hdec] at hev
    | some r =>
    cases r with
    | error e => simp [process, hdec] at hev
    | ok http_message =>
    cases hcls : classifyRequest ext http_message with
    | error e => simp [process, hdec, hcls] at hev
    | ok p =>
    obtain ⟨request_url, init_data⟩ := p
    cases hurl : ext.parseUrl request_url with
    | error e => simp [process, hdec, hcls, hurl] at hev
    | ok parsed_request_url =>
    cases hhost : parsed_request_url.hostOpt with
    | none => simp [process, hdec, hcls, hurl, hhost] at hev
    | some target_host =>
    cases hguard : invalidTargetHost target_host with
    | true => simp [process, hdec, hcls, hurl, hhost, hguard] at hev
    | false =>
    cases hconn : input.proxyConnectResult with
    | error e => simp [process, hdec, hcls, hurl, hhost, hguard, hconn] at hev
    | ok u0 =>
    cases hsend : input.proxySendResult with
    | error e => simp [process, hdec, hcls, hurl, hhost, hguard, hconn, hsend] at hev
    | ok u1 =>
    cases hmsg : input.proxyFirstMessage with
    | none => simp [process, hdec, hcls, hurl, hhost, hguard, hconn, hsend, hmsg] at hev
    | some m =>
    cases m with
    | error e => simp [process, hdec, hcls, hurl, hhost, hguard, hconn, hsend, hmsg] at hev
    | ok proxy_message =>
    obtain ⟨payload⟩ := proxy_message
    cases payload with
    | nonInit => simp [process, hdec, hcls, hurl, hhost, hguard, hconn, hsend, hmsg] at hev
    | tcpInit result =>
    cases result with
    | fail reason => simp [process, hdec, hcls, hurl, hhost, hguard, hconn, hsend, hmsg] at hev
    | success transport_id => exact ⟨transport_id, rfl⟩

/-- Claim C2: if the resolved target host is `0.0.0.1` or `127.0.0.1`, `process`
returns an error with an empty effect trace: no proxy connection is created and
no tunnel-init request is sent. -/
theorem C2_loopback_host_rejected_before_init (ext : Externals) (user_token : String)
    (src_address : UnifiedAddress) (input : SessionInput) (http_message : HttpRequest)
    (request_url : String) (init_data : Option (List Byte)) (parsed_request_url : ParsedUrl)
    (target_host : String)
    (hdec : input.decodedRequest = some (Except.ok http_message))
    (hcls : classifyRequest ext http_message = Except.ok (request_url, init_data))
    (hurl : ext.parseUrl request_url = Except.ok parsed_request_url)
    (hhost : parsed_request_url.hostOpt = some target_host)
    (hbad : target_host = "0.0.0.1" ∨ target_host = "127.0.0.1") :
    process ext user_token src_address input =
      ([], Except.error "0.0.0.1 or 127.0.0.1 is not a valid destination address") := by
  have hguard : invalidTargetHost target_host = true := by
    rcases hbad with h | h <;> simp [invalidTargetHost, h]
  simp [process, hdec, hcls, hurl, hhost, hguard]

/-- Claim C5: a request whose lowercased method is `connect` gets target url
`https://` ++ request target and no init data; any other request gets its request
target as the url and its full re-encoding as init data (when encoding succeeds). -/
theorem C5_connect_vs_forward_classification (ext : Externals) (req : HttpRequest) :
    (lowercase req.method = CONNECT_METHOD →
      classifyRequest ext req =
        Except.ok (HTTPS_SCHEMA ++ SCHEMA_SEP ++ req.requestTarget, none)) ∧
    (∀ bs, ¬ lowercase req.method = CONNECT_METHOD → ext.encodeRequest req = Except.ok bs →
      classifyRequest ext req = Except.ok (req.requestTarget, some bs)) := by
  refine ⟨fun h => classifyRequest_connect ext req h,
    fun bs h henc => classifyRequest_forward ext req bs h henc⟩

/-- Claim C8: the accept loop logs a failed accept and continues with the rest
of the accepts; an accepted connection's session result is confined to its own
spawned-session event; every accept outcome is processed (the loop never
terminates early on an accept error or a session error). -/
theorem C8_accept_loop_error_isolation :
    (∀ e rest, AgentServer.run (AcceptOutcome.err e :: rest) =
      ServerEvent.acceptErrorLogged e :: AgentServer.run rest) ∧
    (∀ s rest, AgentServer.run (AcceptOutcome.ok s :: rest) =
      handle_client_connection s :: AgentServer.run rest) ∧
    (∀ accepts, (AgentServer.run accepts).length = accepts.length) := by
  refine ⟨fun e rest => rfl, fun s rest => rfl, ?_⟩
  intro accepts
  induction accepts with
  | nil => rfl
  | cons a rest ih => cases a <;> simp [AgentServer.run, handle_client_connection, ih]

/-- Claim C9: a request is classified as a CONNECT tunnel request (no init data)
exactly when its method equals `connect` after lowercase folding. -/
theorem C9_connect_classification_case_insensitive (ext : Externals) (req : HttpRequest) :
    (∃ url, classifyRequest ext req = Except.ok (url, none)) ↔
      lowercase req.method = "connect" := by
  constructor
  · rintro ⟨url, hurl⟩
    by_contra hne
    simp only [classifyRequest, CONNECT_METHOD] at hurl
    simp only [hne, if_false] at hurl
    cases henc : ext.encodeRequest req <;> simp [henc] at hurl
  · intro h
    exact ⟨_, classifyRequest_connect ext req h⟩

/-- Claim C1: for a forward (non-CONNECT) session that reaches the relay, the
re-encoding of the bytes already consumed while decoding the client's request is
handed to the relay as `init_data`, and the relay sends it as the first payload
frame, ahead of every later client chunk, so no client bytes are lost at the
handoff from HTTP framing to the relay. -/
theorem C1_consumed_bytes_forwarded_first (ext : Externals) (user_token : String)
    (src_address : UnifiedAddress) (input : SessionInput) (http_message : HttpRequest)
    (bs : List Byte) (rd : RelayDescriptor)
    (hdec : input.decodedRequest = some (Except.ok http_message))
    (hmeth : ¬ lowercase http_message.method = CONNECT_METHOD)
    (henc : ext.encodeRequest http_message = Except.ok bs)
    (hok : (process ext user_token src_address input).2 = Except.ok rd) :
    rd.initData = some bs ∧
    ∀ clientChunks, tcp_relay rd clientChunks =
      { payloadEncryption := rd.payloadEncryption, data := bs } ::
        clientChunks.map
          (fun chunk => { payloadEncryption := rd.payloadEncryption, data := chunk }) := by
  obtain ⟨hm, request_url, init_data, u, host, tid, hdec2, hcls, -, -, -, -, hrd, -⟩ :=
    process_ok_inv ext user_token src_address input rd hok
  rw [hdec] at hdec2
  injection hdec2 with h1
  injection h1 with h2
  subst h2
  have hcls2 := classifyRequest_forward ext http_message bs hmeth henc
  rw [hcls] at hcls2
  simp only [Except.ok.injEq, Prod.mk.injEq] at hcls2
  obtain ⟨-, h4⟩ := hcls2
  subst h4
  subst hrd
  exact ⟨rfl, fun clientChunks => by simp [tcp_relay]⟩

/-- Claim C3: if the proxy's first reply is anything other than a successful
tcp-init result (a `Fail(reason)`, a non-init payload, a transport error, or a
closed channel), `process` returns an error, the relay is never started, and no
response is written to the client. -/
theorem C3_tunnel_init_failure_aborts (ext : Externals) (user_token : String)
    (src_address : UnifiedAddress) (input : SessionInput)
    (hfail : ∀ transport_id, ¬ input.proxyFirstMessage = some (Except.ok
      { payload := ProxyMessagePayload.tcpInit (ProxyTcpInitResult.success transport_id) })) :
    (∃ e, (process ext user_token src_address input).2 = Except.error e) ∧
    ∀ ev ∈ (process ext user_token src_address input).1,
      (∀ response, ¬ ev = Event.clientWrite response) ∧
      (∀ descriptor, ¬ ev = Event.relayStarted descriptor) := by
  constructor
  · cases h2 : (process ext user_token src_address input).2 with
    | error e => exact ⟨e, rfl⟩
    | ok rd =>
      obtain ⟨hm, request_url, init_data, u, host, tid, -, -, -, -, -, hmsg, -, -⟩ :=
        process_ok_inv ext user_token src_address input rd h2
      exact absurd hmsg (hfail tid)
  · intro ev hev
    constructor
    · intro response hw
      subst hw
      obtain ⟨tid, hmsg⟩ := process_late_event_implies_success ext user_token src_address
        input _ hev (Or.inl ⟨response, rfl⟩)
      exact hfail tid hmsg
    · intro descriptor hw
      subst hw
      obtain ⟨tid, hmsg⟩ := process_late_event_implies_success ext user_token src_address
        input _ hev (Or.inr ⟨descriptor, rfl⟩)
      exact hfail tid hmsg

/-- Claim C4: on a successful tunnel-init, a plain CONNECT session (no init
data) gets the "200 Connection Established" response written to the client
before the relay starts, and a forward session (init data present) gets no
response written to the client at all. -/
theorem C4_connect_response_iff_plain_connect (ext : Externals) (user_token : String)
    (src_address : UnifiedAddress) (input : SessionInput) (rd : RelayDescriptor)
    (hok : (process ext user_token src_address input).2 = Except.ok rd) :
    ∃ r, (rd.initData = none →
        (process ext user_token src_address input).1 =
          [Event.proxyConnectionCreated, Event.proxySendInit r,
            Event.clientWrite connectSuccessResponse, Event.relayStarted rd]) ∧
      (∀ d, rd.initData = some d →
        (process ext user_token src_address input).1 =
          [Event.proxyConnectionCreated, Event.proxySendInit r, Event.relayStarted rd]) := by
  obtain ⟨hm, request_url, init_data, u, host, tid, hdec2, hcls, hurl, hhost, hguard, hmsg,
    hrd, htrace⟩ := process_ok_inv ext user_token src_address input rd hok
  refine ⟨{ userToken := user_token, srcAddress := src_address,
            dstAddress := UnifiedAddress.domain host (resolveTargetPort u),
            payloadEncryption := ext.select user_token (some input.randomBytes) },
    ?_, ?_⟩
  · intro hnone
    rw [hrd] at hnone
    simp only [RelayDescriptor.initData] at hnone
    subst hnone
    rw [htrace]
    simp
  · intro d hsome
    rw [hrd] at hsome
    simp only [RelayDescriptor.initData] at hsome
    subst hsome
    rw [htrace]
    simp

/-- Claim C6: the derived destination port is the parsed url's explicit port
when present, else 443 for the `https` scheme, else 80; and the tcp-init request
sent to the proxy carries the destination address built as domain+port from the
resolved host and that port. -/
theorem C6_destination_port_resolution (ext : Externals) (user_token : String)
    (src_address : UnifiedAddress) (input : SessionInput) (http_message : HttpRequest)
    (request_url : String) (init_data : Option (List Byte)) (parsed_request_url : ParsedUrl)
    (target_host : String)
    (hdec : input.decodedRequest = some (Except.ok http_message))
    (hcls : classifyRequest ext http_message = Except.ok (request_url, init_data))
    (hurl : ext.parseUrl request_url = Except.ok parsed_request_url)
    (hhost : parsed_request_url.hostOpt = some target_host)
    (hguard : invalidTargetHost target_host = false)
    (hconn : input.proxyConnectResult = Except.ok ()) :
    ∃ evs, (process ext user_token src_address input).1 =
      Event.proxyConnectionCreated ::
        Event.proxySendInit
          { userToken := user_token, srcAddress := src_address,
            dstAddress := UnifiedAddress.domain target_host
              (parsed_request_url.portOpt.getD
                (if parsed_request_url.scheme = "https" then 443 else 80)),
            payloadEncryption := ext.select user_token (some input.randomBytes) } :: evs :=
  process_reaches_init ext user_token src_address input http_message request_url init_data
    parsed_request_url target_host hdec hcls hurl hhost hguard hconn

/-- Claim C7: the encryption descriptor is derived once, from the user token and
the session's fresh random bytes; the identical descriptor is carried in the
tcp-init request and in the relay descriptor, and every data frame of the relay
phase is encrypted under it — it is never re-derived mid-session. -/
theorem C7_encryption_descriptor_stable (ext : Externals) (user_token : String)
    (src_address : UnifiedAddress) (input : SessionInput) (rd : RelayDescriptor)
    (hok : (process ext user_token src_address input).2 = Except.ok rd) :
    rd.payloadEncryption = ext.select user_token (some input.randomBytes) ∧
    (∀ r, Event.proxySendInit r ∈ (process ext user_token src_address input).1 →
      r.payloadEncryption = ext.select user_token (some input.randomBytes)) ∧
    (∀ clientChunks, ∀ frame ∈ tcp_relay rd clientChunks,
      frame.payloadEncryption = ext.select user_token (some input.randomBytes)) := by
  obtain ⟨hm, request_url, init_data, u, host, tid, hdec2, hcls, hurl, hhost, hguard, hmsg,
    hrd, htrace⟩ := process_ok_inv ext user_token src_address input rd hok
  subst hrd
  refine ⟨rfl, ?_, ?_⟩
  · intro r hr
    rw [htrace] at hr
    cases init_data with
    | none =>
      simp at hr
      rw [hr]
    | some d =>
      simp at hr
      rw [hr]
  · intro clientChunks frame hf
    cases init_data with
    | none =>
      simp [tcp_relay] at hf
      obtain ⟨chunk, -, hfr⟩ := hf
      subst hfr
      rfl
    | some d =>
      simp [tcp_relay] at hf
      rcases hf with hfr | ⟨chunk, -, hfr⟩ <;> subst hfr <;> rfl

/-- Claim C10: the destination-host guard compares by exact string equality
only: any resolved host other than exactly `0.0.0.1` and `127.0.0.1` (such as
`localhost`, `127.0.0.2`, or an IPv6 loopback form) passes the check, and the
session proceeds to the tunnel-init exchange. -/
theorem C10_host_guard_exact_equality (ext : Externals) (user_token : String)
    (src_address : UnifiedAddress) (input : SessionInput) (http_message : HttpRequest)
    (request_url : String) (init_data : Option (List Byte)) (parsed_request_url : ParsedUrl)
    (target_host : String)
    (hdec : input.decodedRequest = some (Except.ok http_message))
    (hcls : classifyRequest ext http_message = Except.ok (request_url, init_data))
    (hurl : ext.parseUrl request_url = Except.ok parsed_request_url)
    (hhost : parsed_request_url.hostOpt = some target_host)
    (h1 : ¬ target_host = "0.0.0.1") (h2 : ¬ target_host = "127.0.0.1")
    (hconn : input.proxyConnectResult = Except.ok ()) :
    invalidTargetHost target_host = false ∧
    ∃ evs, (process ext user_token src_address input).1 =
      Event.proxyConnectionCreated ::
        Event.proxySendInit
          { userToken := user_token, srcAddress := src_address,
            dstAddress := UnifiedAddress.domain target_host (resolveTargetPort parsed_request_url),
            payloadEncryption := ext.select user_token (some input.randomBytes) } :: evs := by
  have hguard : invalidTargetHost target_host = false := by
    simp [invalidTargetHost, h1, h2]
  exact ⟨hguard, process_reaches_init ext user_token src_address input http_message request_url
    init_data parsed_request_url target_host hdec hcls hurl hhost hguard hconn⟩

/-- Concrete fixture: a parsed url for `https://example.com:8443`. -/
def urlFix : ParsedUrl := { scheme := "https", hostOpt := some "example.com", portOpt := some 8443 }

/-- Concrete fixture: a parsed url whose host is the rejected `127.0.0.1`. -/
def urlLoopback : ParsedUrl := { scheme := "https", hostOpt := some "127.0.0.1", portOpt := none }

/-- Concrete fixture: a parsed url for `http://localhost` with no explicit port. -/
def urlLocalhost : ParsedUrl := { scheme := "http", hostOpt := some "localhost", portOpt := none }

/-- Concrete fixture: external collaborators whose encoder returns the request
body, whose parser returns the given url, and whose selector keys off the token
and the random seed. -/
def extFix (u : ParsedUrl) : Externals :=
  { encodeRequest := fun http_message => Except.ok http_message.body,
    parseUrl := fun _ => Except.ok u,
    select := fun tok rnd => { kind := tok, keyMaterial := rnd.getD [] } }

/-- Concrete fixture: a client source address. -/
def srcFix : UnifiedAddress := UnifiedAddress.ip "192.0.2.7" 50000

/-- Concrete fixture: a CONNECT request to `example.com:8443`. -/
def connectReq : HttpRequest :=
  { method := "CONNECT", requestTarget := "example.com:8443", headers := [], body := [] }

/-- Concrete fixture: a plain GET forward-proxy request. -/
def getReq : HttpRequest :=
  { method := "GET", requestTarget := "http://example.com/path",
    headers := [("Host", "example.com")], body := [72, 105] }

/-- Concrete fixture: a successful tcp-init reply carrying tunnel id `tunnel-1`. -/
def successMsg : ProxyMessage :=
  { payload := ProxyMessagePayload.tcpInit (ProxyTcpInitResult.success "tunnel-1") }

/-- Concrete fixture: a failed tcp-init reply. -/
def failMsg : ProxyMessage :=
  { payload := ProxyMessagePayload.tcpInit (ProxyTcpInitResult.fail "refused") }

/-- Concrete fixture: session inputs where every I/O step succeeds and the proxy
replies with the given message. -/
def inputFix (req : HttpRequest) (reply : Option (Except String ProxyMessage)) : SessionInput :=
  { decodedRequest := some (Except.ok req), randomBytes := [1, 2, 3],
    proxyConnectResult := Except.ok (), proxySendResult := Except.ok (),
    proxyFirstMessage := reply, clientWriteResult := Except.ok () }

/-- Concrete fixture: the relay descriptor produced by the forward GET session. -/
def rdForward : RelayDescriptor :=
  { transportId := "tunnel-1", srcAddress := srcFix,
    dstAddress := UnifiedAddress.domain "example.com" 8443, initData := some [72, 105],
    payloadEncryption := { kind := "token-a", keyMaterial := [1, 2, 3] } }

/-- Concrete fixture: the relay descriptor produced by the CONNECT session. -/
def rdConnect : RelayDescriptor :=
  { transportId := "tunnel-1", srcAddress := srcFix,
    dstAddress := UnifiedAddress.domain "example.com" 8443, initData := none,
    payloadEncryption := { kind := "token-a", keyMaterial := [1, 2, 3] } }

/-- Witness for C1 at the concrete forward GET session. -/
theorem C1_witness :
    rdForward.initData = some [72, 105] ∧
    ∀ clientChunks, tcp_relay rdForward clientChunks =
      { payloadEncryption := rdForward.payloadEncryption, data := [72, 105] } ::
        clientChunks.map
          (fun chunk => { payloadEncryption := rdForward.payloadEncryption, data := chunk }) :=
  C1_consumed_bytes_forwarded_first (extFix urlFix) "token-a" srcFix
    (inputFix getReq (some (Except.ok successMsg))) getReq [72, 105] rdForward rfl
    (by decide) rfl rfl

/-- Witness for C2 at a session whose url parses to host `127.0.0.1`. -/
theorem C2_witness :
    process (extFix urlLoopback) "token-a" srcFix
        (inputFix connectReq (some (Except.ok successMsg))) =
      ([], Except.error "0.0.0.1 or 127.0.0.1 is not a valid destination address") :=
  C2_loopback_host_rejected_before_init (extFix urlLoopback) "token-a" srcFix
    (inputFix connectReq (some (Except.ok successMsg))) connectReq "https://example.com:8443"
    none urlLoopback "127.0.0.1" rfl rfl rfl rfl (Or.inr rfl)

/-- Witness for C3 at a session whose proxy replies with a failed tcp-init. -/
theorem C3_witness :
    (∃ e, (process (extFix urlFix) "token-a" srcFix
      (inputFix connectReq (some (Except.ok failMsg)))).2 = Except.error e) ∧
    ∀ ev ∈ (process (extFix urlFix) "token-a" srcFix
        (inputFix connectReq (some (Except.ok failMsg)))).1,
      (∀ response, ¬ ev = Event.clientWrite response) ∧
      (∀ descriptor, ¬ ev = Event.relayStarted descriptor) :=
  C3_tunnel_init_failure_aborts (extFix urlFix) "token-a" srcFix
    (inputFix connectReq (some (Except.ok failMsg)))
    (by intro transport_id h; simp [inputFix, failMsg] at h)

/-- Witness for C4 at the concrete CONNECT session. -/
theorem C4_witness :
    ∃ r, (rdConnect.initData = none →
        (process (extFix urlFix) "token-a" srcFix
            (inputFix connectReq (some (Except.ok successMsg)))).1 =
          [Event.proxyConnectionCreated, Event.proxySendInit r,
            Event.clientWrite connectSuccessResponse, Event.relayStarted rdConnect]) ∧
      (∀ d, rdConnect.initData = some d →
        (process (extFix urlFix) "token-a" srcFix
            (inputFix connectReq (some (Except.ok successMsg)))).1 =
          [Event.proxyConnectionCreated, Event.proxySendInit r,
            Event.relayStarted rdConnect]) :=
  C4_connect_response_iff_plain_connect (extFix urlFix) "token-a" srcFix
    (inputFix connectReq (some (Except.ok successMsg))) rdConnect rfl

/-- Witness for C5 at a concrete CONNECT request and a concrete GET request. -/
theorem C5_witness :
    classifyRequest (extFix urlFix) connectReq = Except.ok ("https://example.com:8443", none) ∧
    classifyRequest (extFix urlFix) getReq =
      Except.ok ("http://example.com/path", some [72, 105]) :=
  ⟨(C5_connect_vs_forward_classification (extFix urlFix) connectReq).1 (by decide),
    (C5_connect_vs_forward_classification (extFix urlFix) getReq).2 [72, 105] (by decide) rfl⟩

/-- Witness for C6 at the concrete CONNECT session: explicit port 8443 is used. -/
theorem C6_witness :
    ∃ evs, (process (extFix urlFix) "token-a" srcFix
        (inputFix connectReq (some (Except.ok successMsg)))).1 =
      Event.proxyConnectionCreated ::
        Event.proxySendInit
          { userToken := "token-a", srcAddress := srcFix,
            dstAddress := UnifiedAddress.domain "example.com" 8443,
            payloadEncryption := { kind := "token-a", keyMaterial := [1, 2, 3] } } :: evs :=
  C6_destination_port_resolution (extFix urlFix) "token-a" srcFix
    (inputFix connectReq (some (Except.ok successMsg))) connectReq "https://example.com:8443"
    none urlFix "example.com" rfl rfl rfl rfl rfl rfl

/-- Witness for C7 at the concrete CONNECT session. -/
theorem C7_witness :
    rdConnect.payloadEncryption =
      ({ kind := "token-a", keyMaterial := [1, 2, 3] } : PayloadEncryption) ∧
    (∀ r, Event.proxySendInit r ∈ (process (extFix urlFix) "token-a" srcFix
        (inputFix connectReq (some (Except.ok successMsg)))).1 →
      r.payloadEncryption = { kind := "token-a", keyMaterial := [1, 2, 3] }) ∧
    (∀ clientChunks, ∀ frame ∈ tcp_relay rdConnect clientChunks,
      frame.payloadEncryption = { kind := "token-a", keyMaterial := [1, 2, 3] }) :=
  C7_encryption_descriptor_stable (extFix urlFix) "token-a" srcFix
    (inputFix connectReq (some (Except.ok successMsg))) rdConnect rfl

/-- Witness for C10 at a session targeting `localhost`: the guard passes and the
session proceeds to the tunnel-init exchange with default port 80. -/
theorem C10_witness :
    invalidTargetHost "localhost" = false ∧
    ∃ evs, (process (extFix urlLocalhost) "token-a" srcFix
        (inputFix getReq (some (Except.ok successMsg)))).1 =
      Event.proxyConnectionCreated ::
        Event.proxySendInit
          { userToken := "token-a", srcAddress := srcFix,
            dstAddress := UnifiedAddress.domain "localhost" 80,
            payloadEncryption := { kind := "token-a", keyMaterial := [1, 2, 3] } } :: evs :=
  C10_host_guard_exact_equality (extFix urlLocalhost) "token-a" srcFix
    (inputFix getReq (some (Except.ok successMsg))) getReq "http://example.com/path"
    (some [72, 105]) urlLocalhost "localhost" rfl rfl rfl rfl (by decide) (by decide) rfl

end PpaassAgent
